import Mathlib

/-!
Shallow embedding of the Student-List Flask application (src/app.py) in Lean 4:
the record store (SQLite `students` table), the photo store (upload directory),
and the three routes `index`, `save_student_from_webcam`, `delete_student`.
Machine-level library calls (`base64.b64decode`, `werkzeug.secure_filename`)
are modelled faithfully at the level the routes use them.
-/

namespace StudentList

/-- A row of the `students` table (src/app.py, init_database):
id INTEGER PRIMARY KEY AUTOINCREMENT, idno, lastname, firstname, course,
level, image_file. -/
structure Student where
  id : Nat
  idno : String
  lastname : String
  firstname : String
  course : String
  level : String
  image_file : String
  deriving Repr, DecidableEq

/-- The persistent state: the `students` table (rows in insertion order, ids
assigned from the monotonically increasing `nextId` counter, modelling SQLite
AUTOINCREMENT) and the upload directory `static/uploads` as an association
list from filename to file bytes. -/
structure AppState where
  students : List Student
  nextId : Nat
  photos : List (String × List Nat)
  deriving Repr, DecidableEq

/-- One incoming HTTP request to POST /savestudent, as the handler observes it.
`reqData` is `request.data` decoded as UTF-8 (`none` when the body is empty or
not valid UTF-8, the two cases in which method 1 of the handler yields
nothing); `form` is `request.form` as an ordered multidict; `rawData` is
`request.get_data(as_text=True)` (`none` when it raises); `jsonActive` is
`request.is_json and request.json`; the three `json*` fields are the values of
the keys image/file/data in the JSON body; `writeOk` says whether the
filesystem write of the photo succeeds; `timestamp` is
`datetime.now().strftime('%Y%m%d%H%M%S')` at handling time. -/
structure Request where
  idno : Option String
  lastname : Option String
  firstname : Option String
  course : Option String
  level : Option String
  reqData : Option String
  form : List (String × String)
  rawData : Option String
  jsonActive : Bool
  jsonImage : Option String
  jsonFile : Option String
  jsonData : Option String
  writeOk : Bool
  timestamp : String
  deriving Repr, DecidableEq

/-- Python truthiness of an optional string: `None` and the empty string are
falsy, every other string is truthy. -/
def truthyS : Option String → Bool
  | none => false
  | some s => !s.isEmpty

/-- The value of a base64 alphabet character, `none` for every character
outside the alphabet (as `binascii.a2b_base64` classifies bytes). -/
def b64Digit (c : Char) : Option Nat :=
  if 65 ≤ c.toNat ∧ c.toNat ≤ 90 then some (c.toNat - 65)
  else if 97 ≤ c.toNat ∧ c.toNat ≤ 122 then some (c.toNat - 97 + 26)
  else if 48 ≤ c.toNat ∧ c.toNat ≤ 57 then some (c.toNat - 48 + 52)
  else if c = '+' then some 62
  else if c = '/' then some 63
  else none

/-- The one or two bytes produced by a final quad of two or three data
characters once padding completes. -/
def b64Final : List Nat → List Nat
  | [a, b] => [a * 4 + b / 16]
  | [a, b, c] => [a * 4 + b / 16, b % 16 * 16 + c / 4]
  | _ => []

/-- The decode loop of `binascii.a2b_base64` in non-strict mode (the mode
`base64.b64decode` uses): characters outside the alphabet are skipped
(leaving the pad counter untouched), a padding character counts only once at
least two data characters of the current quad are present, every valid data
character resets the pad counter to zero, decoding ends successfully when
quad length plus padding reaches four, and leftover data characters at end
of input are an error (`quad` collects the up to three pending digits,
`pads` the effective padding characters seen since the last data
character). -/
def b64Aux : List Char → List Nat → Nat → Option (List Nat)
  | [], quad, _pads => if quad.isEmpty then some [] else none
  | c :: rest, quad, pads =>
    if c = '=' then
      if 2 ≤ quad.length then
        if 4 ≤ quad.length + pads + 1 then some (b64Final quad)
        else b64Aux rest quad (pads + 1)
      else b64Aux rest quad pads
    else
      match b64Digit c with
      | none => b64Aux rest quad pads
      | some d =>
        match quad with
        | [a, b, c2] =>
          (b64Aux rest [] 0).map
            (fun tl => (a * 4 + b / 16) :: (b % 16 * 16 + c2 / 4) :: (c2 % 4 * 64 + d) :: tl)
        | _ => b64Aux rest (quad ++ [d]) 0

/-- `base64.b64decode` on the character sequence of a Python string: the
string argument is first encoded as ASCII, so any character outside the
ASCII range raises ValueError (modelled as `none`); then the binascii loop
runs, whose `binascii.Error` exceptions (incorrect padding, or data length
one more than a multiple of four) are also `none`. -/
def b64decode (l : List Char) : Option (List Nat) :=
  if l.all (fun c => c.toNat < 128) then b64Aux l [] 0 else none

/-- The suffix of `l` after the first occurrence of `pat`: `some` of the
remainder models Python `l.split(pat, 1)[1]` when `pat in l`, and `none`
models `pat not in l`. -/
def subAfter (pat : List Char) : List Char → Option (List Char)
  | [] => if pat.isEmpty then some [] else none
  | c :: t =>
    if pat.isPrefixOf (c :: t) then some ((c :: t).drop pat.length)
    else subAfter pat t

/-- The characters of the data-URI marker the handler looks for. -/
def markerChars : List Char := "base64,".toList

/-- The characters of the substring method 3 of the handler looks for. -/
def dataImageChars : List Char := "data:image".toList

/-- Characters the `secure_filename` regex keeps: `[A-Za-z0-9_.-]`. -/
def filenameAllowed (c : Char) : Bool :=
  c.isAlphanum || c = '_' || c = '.' || c = '-'

/-- Python `str.split()` with no separator: split on runs of whitespace,
dropping empty pieces (the accumulator holds the current word reversed). -/
def pyWords : List Char → List Char → List (List Char)
  | [], acc => if acc.isEmpty then [] else [acc.reverse]
  | c :: rest, acc =>
    if c.isWhitespace then
      if acc.isEmpty then pyWords rest [] else acc.reverse :: pyWords rest []
    else pyWords rest (c :: acc)

/-- Strip the characters dot and underscore from both ends, as
Python `.strip("._")`. -/
def stripDotUnderscore (l : List Char) : List Char :=
  ((l.dropWhile (fun c => c = '.' || c = '_')).reverse.dropWhile
    (fun c => c = '.' || c = '_')).reverse

/-- `werkzeug.utils.secure_filename` on a POSIX host: drop non-ASCII
characters (the NFKD-normalize-then-ascii-encode step; decomposition of
accented characters is conservatively modelled as dropping them), replace the
path separator by a space, join the whitespace-split words with underscores,
delete every character outside `[A-Za-z0-9_.-]`, and strip leading and
trailing dots and underscores (the Windows device-name branch is dead on
POSIX). -/
def secure_filename (s : String) : String :=
  let ascii := s.toList.filter (fun c => c.toNat < 128)
  let replaced := ascii.map (fun c => if c = '/' then ' ' else c)
  let joined := List.intercalate [Char.ofNat 95] (pyWords replaced [])
  String.mk (stripDotUnderscore (joined.filter filenameAllowed))

/-- Method 2 of the handler: iterate over the field names file, image,
webcam, data and take the first one present in `request.form`. -/
def formImage (form : List (String × String)) : Option String :=
  ["file", "image", "webcam", "data"].findSome? (fun n => form.lookup n)

/-- The four-channel payload extraction of `save_student_from_webcam`
(src/app.py lines 107-148): request.data if non-empty and UTF-8 decodable;
else the first of the form fields file/image/webcam/data when the form is
non-empty; else `request.get_data(as_text=True)` when non-empty and containing
the substring data:image; else the JSON fields image or file or data when the
request carries JSON. Each later method runs only while the value so far is
Python-falsy. -/
def extractImage (r : Request) : Option String :=
  let i1 := r.reqData
  let i2 :=
    if !truthyS i1 && !r.form.isEmpty then
      match formImage r.form with
      | some v => some v
      | none => i1
    else i1
  let i3 :=
    if !truthyS i2 then
      match r.rawData with
      | some raw =>
        if !raw.isEmpty && (subAfter dataImageChars raw.toList).isSome then some raw
        else i2
      | none => i2
    else i2
  if !truthyS i3 && r.jsonActive then
    if truthyS r.jsonImage then r.jsonImage
    else if truthyS r.jsonFile then r.jsonFile
    else r.jsonData
  else i3

/-- The handler POST /savestudent (src/app.py, `save_student_from_webcam`).
Returns the (body, HTTP status) pair the route returns together with the
state after the request. The final `except Exception` clause is the two
500 results: a base64 decode error and a filesystem write error are the two
exceptions reachable after validation. -/
def save_student_from_webcam (st : AppState) (r : Request) :
    (String × Nat) × AppState :=
  if !(truthyS r.idno && truthyS r.lastname && truthyS r.firstname &&
      truthyS r.course && truthyS r.level) then
    (("Error: All student fields are required.", 400), st)
  else
    let idno := r.idno.getD ""
    if st.students.any (fun s => s.idno == idno) then
      (("Error: ID Number already exists. Use a unique ID.", 409), st)
    else
      let image_data_b64 := extractImage r
      if !truthyS image_data_b64 then
        (("Error: No image data received. Please take a picture using the TAKE PHOTO button first.",
          400), st)
      else
        match subAfter markerChars (image_data_b64.getD "").toList with
        | none =>
          (("Error: Invalid image format. Please take a new picture using the TAKE PHOTO button.",
            400), st)
        | some base64_data =>
          match b64decode base64_data with
          | none => (("Internal Server Error: Failed to process request", 500), st)
          | some image_binary =>
            let filename :=
              secure_filename idno ++ "_" ++ r.timestamp ++ ".jpeg"
            if r.writeOk then
              let st1 : AppState :=
                { st with
                  photos :=
                    st.photos.filter (fun p => !(p.1 == filename)) ++
                      [(filename, image_binary)] }
              let newStudent : Student :=
                { id := st1.nextId
                  idno := idno
                  lastname := r.lastname.getD ""
                  firstname := r.firstname.getD ""
                  course := r.course.getD ""
                  level := r.level.getD ""
                  image_file := filename }
              (("Student Saved Successfully", 200),
                { st1 with
                  students := st1.students ++ [newStudent]
                  nextId := st1.nextId + 1 })
            else
              (("Internal Server Error: Failed to process request", 500), st)

/-- The handler POST /delete/id (src/app.py, `delete_student`): fetch the row;
if absent flash not-found and stop; otherwise remove the image file from disk
when it is set, is not the sentinel default_user.png and exists; then delete
the row. Returns the flash message and the state after the request. -/
def delete_student (st : AppState) (id : Nat) : String × AppState :=
  match st.students.find? (fun s => s.id == id) with
  | none => ("Student with ID " ++ toString id ++ " not found", st)
  | some student =>
    let st1 :=
      if !student.image_file.isEmpty && student.image_file ≠ "default_user.png" then
        { st with photos := st.photos.filter (fun p => !(p.1 == student.image_file)) }
      else st
    ("Student " ++ student.firstname ++ " " ++ student.lastname ++ " Deleted Successfully",
      { st1 with students := st1.students.filter (fun s => !(s.id == id)) })

/-- The handler GET / (src/app.py, `index`): SELECT * FROM students ORDER BY
id DESC. -/
def index (st : AppState) : List Student :=
  st.students.mergeSort (fun a b => decide (b.id ≤ a.id))

/-! Concrete fixtures used by witnesses and counterexamples. -/

/-- The freshly initialised state: empty table, next AUTOINCREMENT id 1,
upload directory holding only the sentinel placeholder file. -/
def stEmpty : AppState :=
  { students := [], nextId := 1, photos := [("default_user.png", [0])] }

/-- A well-formed webcam registration request for student S001. -/
def reqOk : Request :=
  { idno := some "S001", lastname := some "Cruz", firstname := some "Ana",
    course := some "BSIT", level := some "3",
    reqData := some "data:image/jpeg;base64,QUJD", form := [], rawData := none,
    jsonActive := false, jsonImage := none, jsonFile := none, jsonData := none,
    writeOk := true, timestamp := "20240101000000" }

/-- The state after `reqOk` succeeds against `stEmpty`: one row for S001 whose
photo file sits in the upload directory next to the sentinel. -/
def stOne : AppState :=
  { students := [{ id := 1, idno := "S001", lastname := "Cruz", firstname := "Ana",
                   course := "BSIT", level := "3",
                   image_file := "S001_20240101000000.jpeg" }],
    nextId := 2,
    photos := [("default_user.png", [0]),
               ("S001_20240101000000.jpeg", [65, 66, 67])] }

/-- A registration request whose payload carries the marker but an
undecodable base64 segment (one data character). -/
def reqBadB64 : Request :=
  { reqOk with reqData := some "data:image/jpeg;base64,A" }

/-- A registration request for id S009 whose four name fields are pure
whitespace (non-empty, so Python-truthy). -/
def reqWS : Request :=
  { reqOk with idno := some "S009", lastname := some " ", firstname := some " ",
               course := some " ", level := some " " }

/-! Helper lemmas. -/

/-- A string whose character list contains the base64 marker is non-empty,
hence Python-truthy. -/
lemma truthy_of_subAfter {s : String} {d : List Char}
    (h : subAfter markerChars s.toList = some d) : truthyS (some s) = true := by
  by_contra hne
  have hemp : s.isEmpty = true := by
    simp only [truthyS, Bool.not_eq_true] at hne
    simpa using hne
  rw [(String.isEmpty_iff s).mp hemp] at h
  simp [subAfter, markerChars] at h

/-- In a list of students with pairwise distinct id numbers, a witness for an
id number makes the matching rows exactly one. -/
lemma filter_idno_length_one {l : List Student} {x : String}
    (hu : l.Pairwise (fun a b => a.idno ≠ b.idno))
    (hex : ∃ s ∈ l, s.idno = x) :
    (l.filter (fun t => t.idno == x)).length = 1 := by
  induction l with
  | nil => simp at hex
  | cons a t ih =>
    rcases List.pairwise_cons.mp hu with ⟨ha, ht⟩
    rcases hex with ⟨s, hs, hsx⟩
    rcases List.mem_cons.mp hs with rfl | hmem
    · rw [List.filter_cons, if_pos (by simp [hsx])]
      have hnil : t.filter (fun t2 => t2.idno == x) = [] := by
        apply List.filter_eq_nil_iff.mpr
        intro b hb
        have := ha b hb
        simp only [beq_iff_eq]
        rw [hsx] at this
        exact fun hbx => this hbx.symm
      simp [hnil]
    · rw [List.filter_cons, if_neg (by
        have := ha s hmem
        simp only [beq_iff_eq]
        rw [hsx] at this
        exact this)]
      exact ih ht ⟨s, hmem, hsx⟩

/-- Computation rule for truthiness of a present string. -/
lemma truthyS_some (s : String) : truthyS (some s) = !s.isEmpty := rfl

/-- Computation rule for truthiness of an absent string. -/
lemma truthyS_none : truthyS none = false := rfl

/-- The field-validation branch of the handler: if any of the five text
fields is Python-falsy the handler answers the fields-required message with
status 400 and leaves the state untouched. -/
lemma save_fields_missing_eq (st : AppState) (r : Request)
    (h : truthyS r.idno = false ∨ truthyS r.lastname = false ∨
         truthyS r.firstname = false ∨ truthyS r.course = false ∨
         truthyS r.level = false) :
    save_student_from_webcam st r =
      (("Error: All student fields are required.", 400), st) := by
  unfold save_student_from_webcam
  rcases h with h | h | h | h | h <;> simp [h]

/-- Every character surviving `secure_filename` is in `[A-Za-z0-9_.-]`. -/
lemma secure_filename_chars (s : String) :
    ∀ c ∈ (secure_filename s).toList, filenameAllowed c = true := by
  intro c hc
  unfold secure_filename at hc
  simp only [String.toList] at hc
  have hc2 : c ∈ stripDotUnderscore
      ((List.intercalate [Char.ofNat 95]
        (pyWords ((s.toList.filter (fun c => c.toNat < 128)).map
          (fun c => if c = '/' then ' ' else c)) [])).filter filenameAllowed) := hc
  unfold stripDotUnderscore at hc2
  have hc3 := (List.mem_reverse).mp hc2
  have hc4 := (List.dropWhile_sublist _).mem hc3
  have hc5 := (List.mem_reverse).mp hc4
  have hc6 := (List.dropWhile_sublist _).mem hc5
  exact (List.mem_filter.mp hc6).2

/-! Claim theorems. -/

/-- A payload containing the marker is a non-empty string. -/
lemma isEmpty_false_of_subAfter {s : String} {d : List Char}
    (hsub : subAfter markerChars s.toList = some d) : s.isEmpty = false := by
  have h := truthy_of_subAfter hsub
  rw [truthyS_some] at h
  simpa using h

/-- The decode-failure branch of the handler: five fields present, idNumber
fresh, payload extracted and containing the marker, but the base64 segment
undecodable: the decode exception reaches the catch-all, which answers 500
with the state untouched. -/
lemma save_decode_fail_eq (st : AppState) (r : Request) (s : String)
    (d : List Char)
    (h1 : truthyS r.idno = true) (h2 : truthyS r.lastname = true)
    (h3 : truthyS r.firstname = true) (h4 : truthyS r.course = true)
    (h5 : truthyS r.level = true)
    (hfresh : st.students.any (fun s => s.idno == r.idno.getD "") = false)
    (himg : extractImage r = some s)
    (hsub : subAfter markerChars s.toList = some d)
    (hdec : b64decode d = none) :
    save_student_from_webcam st r =
      (("Internal Server Error: Failed to process request", 500), st) := by
  have hse := isEmpty_false_of_subAfter hsub
  have hsub2 : subAfter markerChars s.data = some d := hsub
  unfold save_student_from_webcam
  simp [h1, h2, h3, h4, h5, hfresh, himg, truthyS_some, hse, hsub2, hdec]

/-- The write-failure branch of the handler: with a decodable payload but a
failing filesystem write, the IO exception reaches the catch-all, which
answers 500, and no record is inserted (the state is untouched). -/
lemma save_write_fail_eq (st : AppState) (r : Request) (s : String)
    (d : List Char) (bs : List Nat)
    (h1 : truthyS r.idno = true) (h2 : truthyS r.lastname = true)
    (h3 : truthyS r.firstname = true) (h4 : truthyS r.course = true)
    (h5 : truthyS r.level = true)
    (hfresh : st.students.any (fun s => s.idno == r.idno.getD "") = false)
    (himg : extractImage r = some s)
    (hsub : subAfter markerChars s.toList = some d)
    (hdec : b64decode d = some bs) (hw : r.writeOk = false) :
    save_student_from_webcam st r =
      (("Internal Server Error: Failed to process request", 500), st) := by
  have hse := isEmpty_false_of_subAfter hsub
  have hsub2 : subAfter markerChars s.data = some d := hsub
  unfold save_student_from_webcam
  simp [h1, h2, h3, h4, h5, hfresh, himg, truthyS_some, hse, hsub2, hdec, hw]

/-- The success branch of the handler: five fields present (non-emptiness is
the only requirement), idNumber fresh, payload decodable, write succeeding:
the photo is stored under the generated filename and the record is inserted
with the supplied field values. -/
lemma save_success_eq (st : AppState) (r : Request) (s : String)
    (d : List Char) (bs : List Nat)
    (h1 : truthyS r.idno = true) (h2 : truthyS r.lastname = true)
    (h3 : truthyS r.firstname = true) (h4 : truthyS r.course = true)
    (h5 : truthyS r.level = true)
    (hfresh : st.students.any (fun s => s.idno == r.idno.getD "") = false)
    (himg : extractImage r = some s)
    (hsub : subAfter markerChars s.toList = some d)
    (hdec : b64decode d = some bs) (hw : r.writeOk = true) :
    save_student_from_webcam st r =
      (("Student Saved Successfully", 200),
        { students := st.students ++
            [{ id := st.nextId, idno := r.idno.getD "",
               lastname := r.lastname.getD "", firstname := r.firstname.getD "",
               course := r.course.getD "", level := r.level.getD "",
               image_file :=
                 secure_filename (r.idno.getD "") ++ "_" ++ r.timestamp ++ ".jpeg" }],
          nextId := st.nextId + 1,
          photos := st.photos.filter
              (fun p =>
                !(p.1 == secure_filename (r.idno.getD "") ++ "_" ++ r.timestamp ++ ".jpeg")) ++
            [(secure_filename (r.idno.getD "") ++ "_" ++ r.timestamp ++ ".jpeg", bs)] }) := by
  have hse := isEmpty_false_of_subAfter hsub
  have hsub2 : subAfter markerChars s.data = some d := hsub
  unfold save_student_from_webcam
  simp [h1, h2, h3, h4, h5, hfresh, himg, truthyS_some, hse, hsub2, hdec, hw]

/-- Claim C2: deleting an id that matches no stored record reports a
not-found message and leaves the state (records and photo files) unchanged. -/
theorem delete_missing_id_reports_not_found (st : AppState) (id : Nat)
    (h : st.students.find? (fun s => s.id == id) = none) :
    delete_student st id = ("Student with ID " ++ toString id ++ " not found", st) := by
  unfold delete_student
  rw [h]

/-- Witness for C2 on the initial state and id 1. -/
theorem delete_missing_id_reports_not_found_witness :
    delete_student stEmpty 1 = ("Student with ID " ++ toString 1 ++ " not found", stEmpty) :=
  delete_missing_id_reports_not_found stEmpty 1 (by decide)

/-- Claim C5: a registration request in which any one of the five required
text fields is missing or empty fails with the field-validation message and
status 400, and the state (record store and photo store) is unchanged. -/
theorem save_missing_field_fails_400 (st : AppState) (r : Request)
    (h : truthyS r.idno = false ∨ truthyS r.lastname = false ∨
         truthyS r.firstname = false ∨ truthyS r.course = false ∨
         truthyS r.level = false) :
    save_student_from_webcam st r =
      (("Error: All student fields are required.", 400), st) :=
  save_fields_missing_eq st r h

/-- Witness for C5: an empty lastname on an otherwise valid request. -/
theorem save_missing_field_fails_400_witness :
    save_student_from_webcam stEmpty { reqOk with lastname := some "" } =
      (("Error: All student fields are required.", 400), stEmpty) :=
  save_missing_field_fails_400 stEmpty { reqOk with lastname := some "" }
    (Or.inr (Or.inl (by decide)))

/-- Claim C8: the listing returns a permutation of every stored record (no
filtering, no pagination: the length is preserved), ordered by id descending,
and the listing of a state with no records is the empty sequence. -/
theorem index_lists_all_by_id_desc (st : AppState) :
    (index st).Perm st.students ∧
    (index st).Pairwise (fun a b => b.id ≤ a.id) ∧
    (index st).length = st.students.length ∧
    index { students := [], nextId := 1, photos := [] } = [] := by
  refine ⟨List.mergeSort_perm st.students _, ?_, ?_, by simp [index]⟩
  · have h := @List.sorted_mergeSort Student
      (fun a b : Student => decide (b.id ≤ a.id))
      (fun a b c hab hbc => by
        simp only [decide_eq_true_eq] at *
        omega)
      (fun a b => by
        simp only [Bool.or_eq_true, decide_eq_true_eq]
        omega)
      st.students
    exact h.imp (fun hab => by simpa using hab)
  · exact (List.mergeSort_perm st.students _).length_eq

/-- Claim C3 (amended: the 400 is guaranteed only when the idNumber is not
already registered, since the duplicate check runs before payload extraction
and answers 409): when no channel yields a usable payload or the payload
lacks the marker substring, registration fails with status 400 and the state
is unchanged. -/
theorem save_bad_payload_fails_400 (st : AppState) (r : Request)
    (hfresh : st.students.any (fun s => s.idno == r.idno.getD "") = false)
    (hbad : subAfter markerChars ((extractImage r).getD "").toList = none) :
    ∃ msg, save_student_from_webcam st r = ((msg, 400), st) := by
  by_cases hf : (truthyS r.idno && truthyS r.lastname && truthyS r.firstname &&
      truthyS r.course && truthyS r.level) = true
  · obtain ⟨⟨⟨⟨h1, h2⟩, h3⟩, h4⟩, h5⟩ := by
      simpa only [Bool.and_eq_true] using hf
    unfold save_student_from_webcam
    rcases himg : extractImage r with _ | s
    · refine ⟨"Error: No image data received. Please take a picture using the TAKE PHOTO button first.", ?_⟩
      simp [h1, h2, h3, h4, h5, hfresh, himg, truthyS_none]
    · rw [himg] at hbad
      simp only [Option.getD] at hbad
      by_cases hse : s.isEmpty = true
      · refine ⟨"Error: No image data received. Please take a picture using the TAKE PHOTO button first.", ?_⟩
        simp [h1, h2, h3, h4, h5, hfresh, himg, truthyS_some, hse]
      · refine ⟨"Error: Invalid image format. Please take a new picture using the TAKE PHOTO button.", ?_⟩
        have hbad2 : subAfter markerChars s.data = none := hbad
        simp [h1, h2, h3, h4, h5, hfresh, himg, truthyS_some, hse, hbad2]
  · refine ⟨"Error: All student fields are required.", ?_⟩
    refine save_fields_missing_eq st r ?_
    rcases hi : truthyS r.idno with _ | _
    · exact Or.inl rfl
    rcases hl : truthyS r.lastname with _ | _
    · exact Or.inr (Or.inl rfl)
    rcases hf2 : truthyS r.firstname with _ | _
    · exact Or.inr (Or.inr (Or.inl rfl))
    rcases hc : truthyS r.course with _ | _
    · exact Or.inr (Or.inr (Or.inr (Or.inl rfl)))
    rcases hv : truthyS r.level with _ | _
    · exact Or.inr (Or.inr (Or.inr (Or.inr rfl)))
    exact absurd (by rw [hi, hl, hf2, hc, hv]; rfl) hf

/-- Counterexample to Claim C3 as stated: a request carrying no payload in
any channel but a duplicate idNumber fails with status 409, not 400. -/
theorem save_bad_payload_counterexample :
    extractImage { reqOk with reqData := none } = none ∧
    save_student_from_webcam stOne { reqOk with reqData := none } =
      (("Error: ID Number already exists. Use a unique ID.", 409), stOne) ∧
    (409 : Nat) ≠ 400 := by decide

/-- Witness for C3 (amended) on the initial state and a payload-less
request. -/
theorem save_bad_payload_fails_400_witness :
    ∃ msg, save_student_from_webcam stEmpty { reqOk with reqData := none } =
      ((msg, 400), stEmpty) :=
  save_bad_payload_fails_400 stEmpty { reqOk with reqData := none }
    (by decide) (by decide)

/-- Claim C4 (amended: the 409 is guaranteed only when the five text fields
are also present, since field validation runs first and answers 400): a
registration whose idNumber already exists fails with status 409, the state
is unchanged, and the store retains exactly one record with that idNumber. -/
theorem save_duplicate_idno_fails_409 (st : AppState) (r : Request)
    (h1 : truthyS r.idno = true) (h2 : truthyS r.lastname = true)
    (h3 : truthyS r.firstname = true) (h4 : truthyS r.course = true)
    (h5 : truthyS r.level = true)
    (hu : st.students.Pairwise (fun a b => a.idno ≠ b.idno))
    (hex : ∃ s ∈ st.students, s.idno = r.idno.getD "") :
    save_student_from_webcam st r =
      (("Error: ID Number already exists. Use a unique ID.", 409), st) ∧
    (st.students.filter (fun t => t.idno == r.idno.getD "")).length = 1 := by
  have hany : st.students.any (fun s => s.idno == r.idno.getD "") = true := by
    rcases hex with ⟨s, hs, hsx⟩
    exact List.any_eq_true.mpr ⟨s, hs, by simp [hsx]⟩
  constructor
  · unfold save_student_from_webcam
    simp [h1, h2, h3, h4, h5, hany]
  · exact filter_idno_length_one hu hex

/-- Counterexample to Claim C4 as stated: a request whose idNumber is already
registered but whose lastname is absent fails with the field-validation 400,
not with 409. -/
theorem save_duplicate_idno_counterexample :
    (∃ s ∈ stOne.students, s.idno = "S001") ∧
    save_student_from_webcam stOne { reqOk with lastname := none } =
      (("Error: All student fields are required.", 400), stOne) ∧
    (400 : Nat) ≠ 409 := by decide

/-- Witness for C4 (amended): registering S001 a second time. -/
theorem save_duplicate_idno_fails_409_witness :
    save_student_from_webcam stOne reqOk =
      (("Error: ID Number already exists. Use a unique ID.", 409), stOne) ∧
    (stOne.students.filter (fun t => t.idno == reqOk.idno.getD "")).length = 1 :=
  save_duplicate_idno_fails_409 stOne reqOk (by decide) (by decide) (by decide)
    (by decide) (by decide) (by decide) (by decide)

/-- The found branch of the deletion handler: the record is removed and the
photo file is removed exactly when the filename is set and is not the
sentinel. -/
lemma delete_found_eq (st : AppState) (id : Nat) (rec : Student)
    (h : st.students.find? (fun s => s.id == id) = some rec) :
    delete_student st id =
      ("Student " ++ rec.firstname ++ " " ++ rec.lastname ++ " Deleted Successfully",
        { students := st.students.filter (fun s => !(s.id == id)),
          nextId := st.nextId,
          photos :=
            if !rec.image_file.isEmpty && rec.image_file ≠ "default_user.png" then
              st.photos.filter (fun p => !(p.1 == rec.image_file))
            else st.photos }) := by
  unfold delete_student
  simp only [h]
  split <;> rfl

/-- Claim C7: deleting an existing record removes the record (a subsequent
listing excludes its id); when its photo filename is set and is not the
sentinel, the photo file is removed from the photo store, a pre-missing
photo file leaves the store untouched rather than failing, and when the
filename is the sentinel the photo store is untouched; in every case the
sentinel file is never deleted. -/
theorem delete_existing_removes_record_and_photo (st : AppState) (id : Nat)
    (rec : Student)
    (h : st.students.find? (fun s => s.id == id) = some rec) :
    (delete_student st id).2.students = st.students.filter (fun s => !(s.id == id)) ∧
    (∀ s ∈ index (delete_student st id).2, s.id ≠ id) ∧
    (rec.image_file ≠ "default_user.png" → rec.image_file ≠ "" →
      (delete_student st id).2.photos =
        st.photos.filter (fun p => !(p.1 == rec.image_file)) ∧
      (∀ bs, (rec.image_file, bs) ∉ (delete_student st id).2.photos) ∧
      (rec.image_file ∉ st.photos.map Prod.fst →
        (delete_student st id).2.photos = st.photos)) ∧
    (rec.image_file = "default_user.png" →
      (delete_student st id).2.photos = st.photos) ∧
    (∀ bs, ("default_user.png", bs) ∈ st.photos →
      ("default_user.png", bs) ∈ (delete_student st id).2.photos) := by
  rw [delete_found_eq st id rec h]
  refine ⟨rfl, ?_, ?_, ?_, ?_⟩
  · intro s hs
    have hs2 := (List.mergeSort_perm _ _).subset hs
    have hpred := (List.mem_filter.mp hs2).2
    simpa using hpred
  · intro hne hne2
    have hie : rec.image_file.isEmpty = false := by
      cases hb : rec.image_file.isEmpty
      · rfl
      · exact absurd ((String.isEmpty_iff _).mp hb) hne2
    have hcond :
        (!rec.image_file.isEmpty &&
          decide (rec.image_file ≠ "default_user.png")) = true := by
      simp [hie, hne]
    refine ⟨if_pos hcond, ?_, ?_⟩
    · intro bs hmem
      rw [if_pos hcond] at hmem
      rcases List.mem_filter.mp hmem with ⟨-, hpred⟩
      simp at hpred
    · intro hnotin
      rw [if_pos hcond]
      apply List.filter_eq_self.mpr
      intro p hp
      have hpf : p.1 ≠ rec.image_file := fun he =>
        hnotin (he ▸ List.mem_map_of_mem Prod.fst hp)
      simp [hpf]
  · intro hsent
    have hcond :
        ¬((!rec.image_file.isEmpty &&
          decide (rec.image_file ≠ "default_user.png")) = true) := by
      simp [hsent]
    exact if_neg hcond
  · intro bs hmem
    by_cases hcond :
        (!rec.image_file.isEmpty &&
          decide (rec.image_file ≠ "default_user.png")) = true
    · rw [if_pos hcond]
      have hrec : rec.image_file ≠ "default_user.png" := by
        have h2 := hcond
        simp only [Bool.and_eq_true, decide_eq_true_eq] at h2
        exact h2.2
      exact List.mem_filter.mpr ⟨hmem, by simp [Ne.symm hrec]⟩
    · rw [if_neg hcond]
      exact hmem

/-- Witness for C7: deleting the S001 row of the one-student state removes
the row and its photo file and keeps the sentinel file. -/
theorem delete_existing_removes_record_and_photo_witness :
    (delete_student stOne 1).2.students = stOne.students.filter (fun s => !(s.id == 1)) ∧
    (delete_student stOne 1).2.photos =
      stOne.photos.filter (fun p => !(p.1 == "S001_20240101000000.jpeg")) := by
  have H := delete_existing_removes_record_and_photo stOne 1
    { id := 1, idno := "S001", lastname := "Cruz", firstname := "Ana",
      course := "BSIT", level := "3",
      image_file := "S001_20240101000000.jpeg" } (by decide)
  exact ⟨H.1, (H.2.2.1 (by decide) (by decide)).1⟩

/-- Claim C1 (amended: the failure is surfaced through the catch-all as a
500-style internal error, not a 4xx-style ValidationError): when the five
fields are present, the idNumber is fresh and the extracted payload contains
the marker but its base64 segment does not decode, registration fails with
status 500 and no side effects occur: the state, in particular the photo
store and the record store, is unchanged. -/
theorem save_undecodable_payload_fails_500 (st : AppState) (r : Request)
    (s : String) (d : List Char)
    (h1 : truthyS r.idno = true) (h2 : truthyS r.lastname = true)
    (h3 : truthyS r.firstname = true) (h4 : truthyS r.course = true)
    (h5 : truthyS r.level = true)
    (hfresh : st.students.any (fun s => s.idno == r.idno.getD "") = false)
    (himg : extractImage r = some s)
    (hsub : subAfter markerChars s.toList = some d)
    (hdec : b64decode d = none) :
    save_student_from_webcam st r =
      (("Internal Server Error: Failed to process request", 500), st) :=
  save_decode_fail_eq st r s d h1 h2 h3 h4 h5 hfresh himg hsub hdec

/-- Counterexample to Claim C1 as stated: on a fresh store, a valid request
whose base64 segment is the single character A fails with status 500, which
is not a 4xx-style signal. -/
theorem save_undecodable_payload_counterexample :
    save_student_from_webcam stEmpty reqBadB64 =
      (("Internal Server Error: Failed to process request", 500), stEmpty) ∧
    ¬(400 ≤ (500 : Nat) ∧ (500 : Nat) < 500) := by decide

/-- Witness for C1 (amended) on the fresh store and the undecodable
payload. -/
theorem save_undecodable_payload_fails_500_witness :
    save_student_from_webcam stEmpty reqBadB64 =
      (("Internal Server Error: Failed to process request", 500), stEmpty) :=
  save_undecodable_payload_fails_500 stEmpty reqBadB64 "data:image/jpeg;base64,A"
    ("A".toList) (by decide) (by decide) (by decide) (by decide) (by decide)
    (by decide) (by decide) (by decide) (by decide)

/-- Claim C6: the photo write happens before the record insert; when the
write to the photo store fails, the workflow aborts with the internal IO
error and no record is inserted: the record store (indeed the whole state)
is unchanged. -/
theorem save_write_failure_no_insert (st : AppState) (r : Request)
    (s : String) (d : List Char) (bs : List Nat)
    (h1 : truthyS r.idno = true) (h2 : truthyS r.lastname = true)
    (h3 : truthyS r.firstname = true) (h4 : truthyS r.course = true)
    (h5 : truthyS r.level = true)
    (hfresh : st.students.any (fun s => s.idno == r.idno.getD "") = false)
    (himg : extractImage r = some s)
    (hsub : subAfter markerChars s.toList = some d)
    (hdec : b64decode d = some bs) (hw : r.writeOk = false) :
    save_student_from_webcam st r =
      (("Internal Server Error: Failed to process request", 500), st) :=
  save_write_fail_eq st r s d bs h1 h2 h3 h4 h5 hfresh himg hsub hdec hw

/-- Witness for C6: a valid request whose filesystem write fails. -/
theorem save_write_failure_no_insert_witness :
    save_student_from_webcam stEmpty { reqOk with writeOk := false } =
      (("Internal Server Error: Failed to process request", 500), stEmpty) :=
  save_write_failure_no_insert stEmpty { reqOk with writeOk := false }
    "data:image/jpeg;base64,QUJD" ("QUJD".toList) [65, 66, 67] (by decide)
    (by decide) (by decide) (by decide) (by decide) (by decide) (by decide)
    (by decide) (by decide) (by decide)

/-- Claim C10 (implicit): field validation only requires each of the five
text fields to be a non-empty string, so all-whitespace values pass it, the
workflow proceeds to the uniqueness check and beyond, and a record whose
name, course or level is pure whitespace is registered whenever the
remaining steps succeed. -/
theorem save_accepts_whitespace_fields (st : AppState) (r : Request)
    (s : String) (d : List Char) (bs : List Nat)
    (h1 : truthyS r.idno = true) (h2 : truthyS r.lastname = true)
    (h3 : truthyS r.firstname = true) (h4 : truthyS r.course = true)
    (h5 : truthyS r.level = true)
    (hfresh : st.students.any (fun s => s.idno == r.idno.getD "") = false)
    (himg : extractImage r = some s)
    (hsub : subAfter markerChars s.toList = some d)
    (hdec : b64decode d = some bs) (hw : r.writeOk = true) :
    save_student_from_webcam st r =
      (("Student Saved Successfully", 200),
        { students := st.students ++
            [{ id := st.nextId, idno := r.idno.getD "",
               lastname := r.lastname.getD "", firstname := r.firstname.getD "",
               course := r.course.getD "", level := r.level.getD "",
               image_file :=
                 secure_filename (r.idno.getD "") ++ "_" ++ r.timestamp ++ ".jpeg" }],
          nextId := st.nextId + 1,
          photos := st.photos.filter
              (fun p =>
                !(p.1 == secure_filename (r.idno.getD "") ++ "_" ++ r.timestamp ++ ".jpeg")) ++
            [(secure_filename (r.idno.getD "") ++ "_" ++ r.timestamp ++ ".jpeg", bs)] }) :=
  save_success_eq st r s d bs h1 h2 h3 h4 h5 hfresh himg hsub hdec hw

/-- Witness for C10: a request whose four name fields are a single space is
registered, and the stored record carries those whitespace values. -/
theorem save_accepts_whitespace_fields_witness :
    (save_student_from_webcam stEmpty reqWS).1 = ("Student Saved Successfully", 200) ∧
    (save_student_from_webcam stEmpty reqWS).2.students =
      [{ id := 1, idno := "S009", lastname := " ", firstname := " ",
         course := " ", level := " ",
         image_file := "S009_20240101000000.jpeg" }] := by
  have H := save_accepts_whitespace_fields stEmpty reqWS
    "data:image/jpeg;base64,QUJD" ("QUJD".toList) [65, 66, 67] (by decide)
    (by decide) (by decide) (by decide) (by decide) (by decide) (by decide)
    (by decide) (by decide) (by decide)
  rw [H]
  constructor
  · rfl
  · decide

/-- Claim C9: every successful registration appends exactly one record, whose
photo filename is the sanitised supplied idNumber, an underscore, the
creation timestamp and the extension .jpeg; the photo store gains a file
under that name, and the sanitised part contains only filename-safe
characters. -/
theorem save_success_filename_format (st : AppState) (r : Request)
    (res : String × Nat) (st2 : AppState)
    (h : save_student_from_webcam st r = (res, st2)) (h200 : res.2 = 200) :
    ∃ stu : Student, st2.students = st.students ++ [stu] ∧
      stu.image_file =
        secure_filename (r.idno.getD "") ++ "_" ++ r.timestamp ++ ".jpeg" ∧
      (∃ bs, (stu.image_file, bs) ∈ st2.photos) ∧
      (∀ c ∈ (secure_filename (r.idno.getD "")).toList, filenameAllowed c = true) := by
  simp only [save_student_from_webcam] at h
  split at h
  · exfalso
    have hx : (400 : Nat) = res.2 := congrArg (fun p => p.1.2) h
    omega
  · split at h
    · exfalso
      have hx : (409 : Nat) = res.2 := congrArg (fun p => p.1.2) h
      omega
    · split at h
      · exfalso
        have hx : (400 : Nat) = res.2 := congrArg (fun p => p.1.2) h
        omega
      · split at h
        · exfalso
          have hx : (400 : Nat) = res.2 := congrArg (fun p => p.1.2) h
          omega
        · split at h
          · exfalso
            have hx : (500 : Nat) = res.2 := congrArg (fun p => p.1.2) h
            omega
          · split at h
            · rename_i ibin hdec2 hw
              rw [Prod.mk.injEq] at h
              obtain ⟨hres, hst⟩ := h
              subst hst
              exact ⟨_, rfl, rfl,
                ⟨ibin, List.mem_append_right _ (List.mem_singleton_self _)⟩,
                secure_filename_chars _⟩
            · exfalso
              have hx : (500 : Nat) = res.2 := congrArg (fun p => p.1.2) h
              omega

/-- Witness for C9: the registration of S001 against the fresh store. -/
theorem save_success_filename_format_witness :
    ∃ stu : Student,
      (save_student_from_webcam stEmpty reqOk).2.students =
        stEmpty.students ++ [stu] ∧
      stu.image_file =
        secure_filename (reqOk.idno.getD "") ++ "_" ++ reqOk.timestamp ++ ".jpeg" ∧
      (∃ bs, (stu.image_file, bs) ∈ (save_student_from_webcam stEmpty reqOk).2.photos) ∧
      (∀ c ∈ (secure_filename (reqOk.idno.getD "")).toList, filenameAllowed c = true) :=
  save_success_filename_format stEmpty reqOk
    (save_student_from_webcam stEmpty reqOk).1
    (save_student_from_webcam stEmpty reqOk).2 rfl (by decide)

end StudentList
